import Mathlib

/-!
Verification of the OAuth2 orchestration layer of the OAuth2-workshop
repository, as a shallow embedding in Lean 4.

Byte strings are modelled as `List Nat` (each entry a byte value below 256).
Python `urllib.parse.quote` / `quote_plus` / query-string parsing are embedded
at the byte level; the FastAPI callback handlers are embedded as pure state
passing functions over an explicit environment (injected collaborator results)
and an explicit datastore, emitting a trace of the side-effecting actions they
perform, in program order.
-/

namespace App

instance {ε α : Type} [DecidableEq ε] [DecidableEq α] :
    DecidableEq (Except ε α) := fun x y =>
  match x, y with
  | .ok a, .ok b =>
    if h : a = b then .isTrue (by rw [h])
    else .isFalse (by intro hc; injection hc; contradiction)
  | .error a, .error b =>
    if h : a = b then .isTrue (by rw [h])
    else .isFalse (by intro hc; injection hc; contradiction)
  | .ok _, .error _ => .isFalse (fun hc => Except.noConfusion hc)
  | .error _, .ok _ => .isFalse (fun hc => Except.noConfusion hc)

/-! ## Percent encoding (urllib.parse) -/

/-- The bytes `urllib.parse.quote` never escapes regardless of `safe`:
ASCII letters, digits, and the characters underscore, dot, hyphen, tilde. -/
def isAlwaysSafe (b : Nat) : Bool :=
  (48 ≤ b && b ≤ 57) || (65 ≤ b && b ≤ 90) || (97 ≤ b && b ≤ 122) ||
    b == 95 || b == 46 || b == 45 || b == 126

/-- Upper-case hexadecimal digit for a value below 16, as a byte. -/
def hexUpper (n : Nat) : Nat := if n < 10 then 48 + n else 55 + n

/-- Percent-escape of one byte: a percent sign and two upper-case hex digits. -/
def quoteByte (b : Nat) : List Nat :=
  [37, hexUpper (b / 16), hexUpper (b % 16)]

/-- `urllib.parse.quote_plus` with empty `safe` (the `urlencode` default):
space becomes a plus sign, always-safe bytes pass through, the rest are
percent-escaped. -/
def quote_plus (s : List Nat) : List Nat :=
  s.flatMap fun b =>
    if b = 32 then [43] else if isAlwaysSafe b then [b] else quoteByte b

/-- `urllib.parse.quote` with the default `safe = "/"`, as used for the scope
part of the authorization URL: slash passes through, space is escaped. -/
def quote_slash (s : List Nat) : List Nat :=
  s.flatMap fun b =>
    if isAlwaysSafe b || b = 47 then [b] else quoteByte b

/-- Value of a hexadecimal digit byte, accepting both letter cases. -/
def hexVal (c : Nat) : Option Nat :=
  if 48 ≤ c ∧ c ≤ 57 then some (c - 48)
  else if 65 ≤ c ∧ c ≤ 70 then some (c - 55)
  else if 97 ≤ c ∧ c ≤ 102 then some (c - 87)
  else none

/-- `urllib.parse.unquote_plus`: plus becomes space, a percent sign followed
by two hex digits becomes the escaped byte, anything else passes through. -/
def unquote_plus : List Nat → List Nat
  | [] => []
  | 43 :: rest => 32 :: unquote_plus rest
  | 37 :: a :: b :: rest2 =>
    (match hexVal a, hexVal b with
     | some x, some y => (16 * x + y) :: unquote_plus rest2
     | _, _ => 37 :: unquote_plus (a :: b :: rest2))
  | c :: rest => c :: unquote_plus rest

/-- All entries are genuine byte values. -/
def Bytes256 (s : List Nat) : Prop := ∀ b ∈ s, b < 256

instance (s : List Nat) : Decidable (Bytes256 s) := by
  unfold Bytes256; infer_instance

/-! ## Query strings -/

/-- Split a byte string on a separator byte (Python `str.split(sep)`):
always returns at least one group, and `n` separators give `n + 1` groups. -/
def splitOnByte (sep : Nat) : List Nat → List (List Nat)
  | [] => [[]]
  | b :: rest =>
    match splitOnByte sep rest with
    | [] => if b = sep then [[], []] else [[b]]
    | g :: gs => if b = sep then [] :: g :: gs else (b :: g) :: gs

/-- Split a byte string at the first equals sign, as query-string parsing
does for each `name=value` pair. -/
def splitKV : List Nat → List Nat × List Nat
  | [] => ([], [])
  | b :: rest =>
    if b = 61 then ([], rest)
    else
      let kv := splitKV rest
      (b :: kv.1, kv.2)

/-- Parse a query string: split on ampersands, split each pair at the first
equals sign, percent-decode names and values. -/
def parseQS (s : List Nat) : List (List Nat × List Nat) :=
  (splitOnByte 38 s).map fun part =>
    (unquote_plus (splitKV part).1, unquote_plus (splitKV part).2)

/-- First value bound to a name in a parsed query string. -/
def lookupParam (key : List Nat) (l : List (List Nat × List Nat)) :
    Option (List Nat) :=
  (l.find? fun kv => kv.1 == key).map fun kv => kv.2

/-- Everything after the first question mark of a URL: its query string. -/
def queryStringOf : List Nat → List Nat
  | [] => []
  | b :: rest => if b = 63 then rest else queryStringOf rest

/-- ASCII bytes of a pure-ASCII literal. -/
def asciiBytes (s : String) : List Nat := s.toList.map Char.toNat

/-- Join byte strings with a separator byte (Python `sep.join`). -/
def joinBytes (sep : Nat) : List (List Nat) → List Nat
  | [] => []
  | [s] => s
  | s :: rest => s ++ sep :: joinBytes sep rest

/-! ## OAuth2 flow configuration and authorization URL construction
(`app/config.py`, `app/services/auth.py`) -/

/-- `BaseOAuth2Configuration` (config.py): per-flow static configuration.
String-valued fields are byte strings. -/
structure BaseOAuth2Configuration where
  client_id : List Nat
  client_secret : List Nat
  auth_url : List Nat
  access_token_url : List Nat
  scopes : List (List Nat)
  redirect_url : List Nat
deriving DecidableEq

/-- `BaseOAuth2Manager._create_auth_url` (services/auth.py): `urlencode` the
response type, client id, redirect URI and state (field order of
`BaseOAuthQueryString`, `scope` excluded), then append the scope as
`quote`-escaped space-joined scopes. -/
def create_auth_url (cfg : BaseOAuth2Configuration) (state : List Nat) :
    List Nat :=
  let query := joinBytes 38
    [quote_plus (asciiBytes "response_type") ++ 61 :: quote_plus (asciiBytes "code"),
     quote_plus (asciiBytes "client_id") ++ 61 :: quote_plus cfg.client_id,
     quote_plus (asciiBytes "redirect_uri") ++ 61 :: quote_plus cfg.redirect_url,
     quote_plus (asciiBytes "state") ++ 61 :: quote_plus state]
  let scope_query := quote_slash (joinBytes 32 cfg.scopes)
  cfg.auth_url ++ 63 :: query ++ 38 :: asciiBytes "scope" ++ 61 :: scope_query

/-! ## Round-trip lemmas for percent encoding -/

theorem hexVal_hexUpper {n : Nat} (h : n < 16) : hexVal (hexUpper n) = some n := by
  interval_cases n <;> decide

theorem unquote_quoteByte {b : Nat} (hb : b < 256) (t : List Nat) :
    unquote_plus (quoteByte b ++ t) = b :: unquote_plus t := by
  have h1 : hexVal (hexUpper (b / 16)) = some (b / 16) :=
    hexVal_hexUpper (by omega)
  have h2 : hexVal (hexUpper (b % 16)) = some (b % 16) :=
    hexVal_hexUpper (Nat.mod_lt _ (by omega))
  simp [quoteByte, unquote_plus, h1, h2]
  omega

theorem isAlwaysSafe_facts {b : Nat} (h : isAlwaysSafe b = true) :
    b ≠ 43 ∧ b ≠ 37 ∧ b ≠ 38 ∧ b ≠ 61 ∧ b ≠ 63 ∧ b ≠ 32 := by
  unfold isAlwaysSafe at h
  simp only [Bool.or_eq_true, Bool.and_eq_true, decide_eq_true_eq,
    beq_iff_eq] at h
  omega

theorem unquote_cons_safe {b : Nat} (h : b ≠ 43) (h2 : b ≠ 37) (t : List Nat) :
    unquote_plus (b :: t) = b :: unquote_plus t := by
  rw [unquote_plus.eq_def]
  split
  · next heq => exact absurd heq (by simp)
  · next rest heq =>
      injection heq with h1 _
      exact absurd h1 h
  · next a c rest2 heq =>
      injection heq with h1 _
      exact absurd h1 h2
  · next c rest hne1 hne2 heq =>
      injection heq with h1 h2'
      subst h1
      subst h2'
      rfl

theorem unquote_cons_plusSign (t : List Nat) :
    unquote_plus (43 :: t) = 32 :: unquote_plus t := by
  simp [unquote_plus]

theorem quote_plus_cons (b : Nat) (s : List Nat) :
    quote_plus (b :: s) =
      (if b = 32 then [43]
       else if isAlwaysSafe b then [b] else quoteByte b) ++ quote_plus s := by
  simp [quote_plus]

theorem unquote_quote_plus_append {s : List Nat} (hs : Bytes256 s) (t : List Nat) :
    unquote_plus (quote_plus s ++ t) = s ++ unquote_plus t := by
  induction s with
  | nil => simp [quote_plus]
  | cons b s ih =>
    have hb : b < 256 := hs b (List.mem_cons_self _ _)
    have hrest : Bytes256 s := fun x hx => hs x (List.mem_cons_of_mem _ hx)
    rw [quote_plus_cons, List.append_assoc]
    by_cases h32 : b = 32
    · subst h32
      rw [if_pos rfl, List.singleton_append, unquote_cons_plusSign, ih hrest,
        List.cons_append]
    · by_cases hsafe : isAlwaysSafe b = true
      · obtain ⟨h43, h37, -⟩ := isAlwaysSafe_facts hsafe
        rw [if_neg h32, if_pos hsafe, List.singleton_append,
          unquote_cons_safe h43 h37, ih hrest, List.cons_append]
      · rw [if_neg h32, if_neg (by simpa using hsafe),
          unquote_quoteByte hb, ih hrest, List.cons_append]

theorem unquote_quote_plus (s : List Nat) (hs : Bytes256 s) :
    unquote_plus (quote_plus s) = s := by
  have h := unquote_quote_plus_append hs []
  simpa [unquote_plus] using h

theorem quote_slash_cons (b : Nat) (s : List Nat) :
    quote_slash (b :: s) =
      (if isAlwaysSafe b || b = 47 then [b] else quoteByte b) ++
        quote_slash s := by
  simp [quote_slash]

theorem unquote_quote_slash_append {s : List Nat} (hs : Bytes256 s)
    (t : List Nat) :
    unquote_plus (quote_slash s ++ t) = s ++ unquote_plus t := by
  induction s with
  | nil => simp [quote_slash]
  | cons b s ih =>
    have hb : b < 256 := hs b (List.mem_cons_self _ _)
    have hrest : Bytes256 s := fun x hx => hs x (List.mem_cons_of_mem _ hx)
    rw [quote_slash_cons, List.append_assoc]
    by_cases hsafe : (isAlwaysSafe b || b = 47) = true
    · have hfacts : b ≠ 43 ∧ b ≠ 37 := by
        rcases Bool.or_eq_true_iff.mp hsafe with h | h
        · obtain ⟨h43, h37, -⟩ := isAlwaysSafe_facts h
          exact ⟨h43, h37⟩
        · have : b = 47 := by simpa using h
          omega
      rw [if_pos hsafe, List.singleton_append,
        unquote_cons_safe hfacts.1 hfacts.2, ih hrest, List.cons_append]
    · rw [if_neg hsafe, unquote_quoteByte hb, ih hrest, List.cons_append]

theorem hexUpper_not_special (n : Nat) :
    hexUpper n ≠ 38 ∧ hexUpper n ≠ 61 := by
  unfold hexUpper
  split <;> omega

theorem quote_plus_no_sep {s : List Nat} :
    ∀ b ∈ quote_plus s, b ≠ 38 ∧ b ≠ 61 := by
  induction s with
  | nil => simp [quote_plus]
  | cons c s ih =>
    intro b hb
    rw [quote_plus_cons] at hb
    rcases List.mem_append.mp hb with h | h
    · split_ifs at h with h32 hsafe
      · simp only [List.mem_singleton] at h
        omega
      · simp only [List.mem_singleton] at h
        subst h
        obtain ⟨-, -, h38, h61, -⟩ := isAlwaysSafe_facts hsafe
        exact ⟨h38, h61⟩
      · simp only [quoteByte, List.mem_cons, List.mem_singleton,
          List.not_mem_nil, or_false] at h
        rcases h with h | h | h
        · omega
        · subst h; exact hexUpper_not_special _
        · subst h; exact hexUpper_not_special _
    · exact ih b h

theorem quote_slash_no_sep {s : List Nat} :
    ∀ b ∈ quote_slash s, b ≠ 38 ∧ b ≠ 61 := by
  induction s with
  | nil => simp [quote_slash]
  | cons c s ih =>
    intro b hb
    rw [quote_slash_cons] at hb
    rcases List.mem_append.mp hb with h | h
    · split_ifs at h with hsafe
      · simp only [List.mem_singleton] at h
        subst h
        rcases Bool.or_eq_true_iff.mp hsafe with h2 | h2
        · obtain ⟨-, -, h38, h61, -⟩ := isAlwaysSafe_facts h2
          exact ⟨h38, h61⟩
        · have : b = 47 := by simpa using h2
          omega
      · simp only [quoteByte, List.mem_cons, List.mem_singleton,
          List.not_mem_nil, or_false] at h
        rcases h with h | h | h
        · omega
        · subst h; exact hexUpper_not_special _
        · subst h; exact hexUpper_not_special _
    · exact ih b h

/-! ## Splitting lemmas -/

theorem splitOnByte_ne_nil (sep : Nat) (l : List Nat) :
    splitOnByte sep l ≠ [] := by
  cases l with
  | nil => simp [splitOnByte]
  | cons b rest =>
    unfold splitOnByte
    split <;> split <;> simp

theorem splitOnByte_of_no_sep {sep : Nat} {a : List Nat} (h : sep ∉ a) :
    splitOnByte sep a = [a] := by
  induction a with
  | nil => rfl
  | cons b rest ih =>
    have hb : b ≠ sep := fun hc => h (hc ▸ List.mem_cons_self _ _)
    have hrest : sep ∉ rest := fun hc => h (List.mem_cons_of_mem _ hc)
    unfold splitOnByte
    rw [ih hrest]
    simp [hb]

theorem splitOnByte_append {sep : Nat} {a : List Nat} (rest : List Nat)
    (h : sep ∉ a) :
    splitOnByte sep (a ++ sep :: rest) = a :: splitOnByte sep rest := by
  induction a with
  | nil =>
    simp only [List.nil_append]
    cases hs : splitOnByte sep rest with
    | nil => exact absurd hs (splitOnByte_ne_nil sep rest)
    | cons g gs =>
      rw [splitOnByte.eq_def]
      simp [hs]
  | cons b a ih =>
    have hb : b ≠ sep := fun hc => h (hc ▸ List.mem_cons_self _ _)
    have ha : sep ∉ a := fun hc => h (List.mem_cons_of_mem _ hc)
    simp only [List.cons_append]
    rw [splitOnByte.eq_def]
    simp [ih ha, hb]

theorem splitKV_append {k : List Nat} (v : List Nat) (h : 61 ∉ k) :
    splitKV (k ++ 61 :: v) = (k, v) := by
  induction k with
  | nil => simp [splitKV]
  | cons b k ih =>
    have hb : b ≠ 61 := fun hc => h (hc ▸ List.mem_cons_self _ _)
    have hk : 61 ∉ k := fun hc => h (List.mem_cons_of_mem _ hc)
    simp only [List.cons_append]
    unfold splitKV
    rw [if_neg hb, ih hk]

theorem splitOnByte_joinBytes {ss : List (List Nat)} (hne : ss ≠ [])
    (h : ∀ s ∈ ss, 32 ∉ s) :
    splitOnByte 32 (joinBytes 32 ss) = ss := by
  induction ss with
  | nil => exact absurd rfl hne
  | cons s ss ih =>
    cases ss with
    | nil =>
      rw [show joinBytes 32 [s] = s from rfl]
      exact splitOnByte_of_no_sep (h s (List.mem_cons_self _ _))
    | cons s2 ss2 =>
      rw [show joinBytes 32 (s :: s2 :: ss2) = s ++ 32 :: joinBytes 32 (s2 :: ss2)
        from rfl]
      rw [splitOnByte_append _ (h s (List.mem_cons_self _ _))]
      rw [ih (by simp) (fun x hx => h x (List.mem_cons_of_mem _ hx))]

theorem queryStringOf_append {a : List Nat} (rest : List Nat) (h : 63 ∉ a) :
    queryStringOf (a ++ 63 :: rest) = rest := by
  induction a with
  | nil => simp [queryStringOf]
  | cons b a ih =>
    have hb : b ≠ 63 := fun hc => h (hc ▸ List.mem_cons_self _ _)
    have ha : 63 ∉ a := fun hc => h (List.mem_cons_of_mem _ hc)
    simp only [List.cons_append]
    unfold queryStringOf
    rw [if_neg hb, ih ha]

theorem unquote_quote_slash (s : List Nat) (hs : Bytes256 s) :
    unquote_plus (quote_slash s) = s := by
  have h := unquote_quote_slash_append hs []
  simpa [unquote_plus] using h

theorem bytes256_joinBytes {ss : List (List Nat)}
    (h : ∀ s ∈ ss, Bytes256 s) : Bytes256 (joinBytes 32 ss) := by
  induction ss with
  | nil => intro b hb; simp [joinBytes] at hb
  | cons s ss ih =>
    cases ss with
    | nil => simpa [joinBytes] using h s (List.mem_cons_self _ _)
    | cons s2 ss2 =>
      intro b hb
      rw [show joinBytes 32 (s :: s2 :: ss2) =
          s ++ 32 :: joinBytes 32 (s2 :: ss2) from rfl] at hb
      rcases List.mem_append.mp hb with h1 | h1
      · exact h s (List.mem_cons_self _ _) b h1
      · rcases List.mem_cons.mp h1 with h1 | h1
        · omega
        · exact ih (fun x hx => h x (List.mem_cons_of_mem _ hx)) b h1

/-- C6 (claim): parsing the query string of the URL built by
`_create_auth_url` recovers exactly the configured client id, redirect URL
and scope set, for every valid configuration. Validity: the client id,
redirect URL, state and scopes are byte strings, the scope list is nonempty,
no scope contains a space, and the authorization endpoint itself carries no
query part. -/
theorem C6_create_auth_url_roundtrip (cfg : BaseOAuth2Configuration)
    (state : List Nat)
    (hcid : Bytes256 cfg.client_id) (hred : Bytes256 cfg.redirect_url)
    (hstate : Bytes256 state)
    (hscopes : ∀ s ∈ cfg.scopes, Bytes256 s ∧ 32 ∉ s)
    (hsne : cfg.scopes ≠ []) (hauth : 63 ∉ cfg.auth_url) :
    lookupParam (asciiBytes "client_id")
        (parseQS (queryStringOf (create_auth_url cfg state))) =
      some cfg.client_id ∧
    lookupParam (asciiBytes "redirect_uri")
        (parseQS (queryStringOf (create_auth_url cfg state))) =
      some cfg.redirect_url ∧
    (lookupParam (asciiBytes "scope")
        (parseQS (queryStringOf (create_auth_url cfg state)))).map
        (splitOnByte 32) =
      some cfg.scopes := by
  have h38 : ∀ k v : List Nat, 38 ∉ quote_plus k ++ 61 :: quote_plus v := by
    intro k v hmem
    rcases List.mem_append.mp hmem with h | h
    · exact (quote_plus_no_sep _ h).1 rfl
    · rcases List.mem_cons.mp h with h | h
      · omega
      · exact (quote_plus_no_sep _ h).1 rfl
  have h38s : 38 ∉ asciiBytes "scope" ++
      61 :: quote_slash (joinBytes 32 cfg.scopes) := by
    intro hmem
    rcases List.mem_append.mp hmem with h | h
    · revert h; decide
    · rcases List.mem_cons.mp h with h | h
      · omega
      · exact (quote_slash_no_sep _ h).1 rfl
  have h61 : ∀ k : List Nat, 61 ∉ quote_plus k := by
    intro k hmem
    exact (quote_plus_no_sep _ hmem).2 rfl
  have hQ : queryStringOf (create_auth_url cfg state) =
      (quote_plus (asciiBytes "response_type") ++
          61 :: quote_plus (asciiBytes "code")) ++
        38 :: ((quote_plus (asciiBytes "client_id") ++
            61 :: quote_plus cfg.client_id) ++
          38 :: ((quote_plus (asciiBytes "redirect_uri") ++
              61 :: quote_plus cfg.redirect_url) ++
            38 :: ((quote_plus (asciiBytes "state") ++
                61 :: quote_plus state) ++
              38 :: (asciiBytes "scope" ++
                61 :: quote_slash (joinBytes 32 cfg.scopes))))) := by
    simp only [create_auth_url, joinBytes, List.append_assoc, List.cons_append]
    rw [queryStringOf_append _ hauth]
  have hsplit : splitOnByte 38 (queryStringOf (create_auth_url cfg state)) =
      [quote_plus (asciiBytes "response_type") ++
          61 :: quote_plus (asciiBytes "code"),
        quote_plus (asciiBytes "client_id") ++ 61 :: quote_plus cfg.client_id,
        quote_plus (asciiBytes "redirect_uri") ++
          61 :: quote_plus cfg.redirect_url,
        quote_plus (asciiBytes "state") ++ 61 :: quote_plus state,
        asciiBytes "scope" ++ 61 :: quote_slash (joinBytes 32 cfg.scopes)] := by
    rw [hQ, splitOnByte_append _ (h38 _ _), splitOnByte_append _ (h38 _ _),
      splitOnByte_append _ (h38 _ _), splitOnByte_append _ (h38 _ _),
      splitOnByte_of_no_sep h38s]
  have hparse : parseQS (queryStringOf (create_auth_url cfg state)) =
      [(asciiBytes "response_type", asciiBytes "code"),
        (asciiBytes "client_id", cfg.client_id),
        (asciiBytes "redirect_uri", cfg.redirect_url),
        (asciiBytes "state", state),
        (asciiBytes "scope", joinBytes 32 cfg.scopes)] := by
    unfold parseQS
    rw [hsplit]
    simp only [List.map_cons, List.map_nil]
    rw [splitKV_append _ (h61 _), splitKV_append _ (h61 _),
      splitKV_append _ (h61 _), splitKV_append _ (h61 _),
      splitKV_append _ (by decide)]
    simp only []
    rw [unquote_quote_plus (asciiBytes "response_type") (by decide),
      unquote_quote_plus (asciiBytes "code") (by decide),
      unquote_quote_plus (asciiBytes "client_id") (by decide),
      unquote_quote_plus cfg.client_id hcid,
      unquote_quote_plus (asciiBytes "redirect_uri") (by decide),
      unquote_quote_plus cfg.redirect_url hred,
      unquote_quote_plus (asciiBytes "state") (by decide),
      unquote_quote_plus state hstate,
      unquote_quote_slash (joinBytes 32 cfg.scopes)
        (bytes256_joinBytes fun s hs => (hscopes s hs).1)]
    rw [show unquote_plus (asciiBytes "scope") = asciiBytes "scope" from by decide]
  have hb1 : (asciiBytes "response_type" == asciiBytes "client_id") = false := by
    decide
  have hb2 : (asciiBytes "client_id" == asciiBytes "client_id") = true := by
    decide
  have hb3 : (asciiBytes "response_type" == asciiBytes "redirect_uri") = false := by
    decide
  have hb4 : (asciiBytes "client_id" == asciiBytes "redirect_uri") = false := by
    decide
  have hb5 : (asciiBytes "redirect_uri" == asciiBytes "redirect_uri") = true := by
    decide
  have hb6 : (asciiBytes "response_type" == asciiBytes "scope") = false := by
    decide
  have hb7 : (asciiBytes "client_id" == asciiBytes "scope") = false := by
    decide
  have hb8 : (asciiBytes "redirect_uri" == asciiBytes "scope") = false := by
    decide
  have hb9 : (asciiBytes "state" == asciiBytes "scope") = false := by
    decide
  have hb10 : (asciiBytes "scope" == asciiBytes "scope") = true := by
    decide
  refine ⟨?_, ?_, ?_⟩
  · rw [hparse]
    simp [lookupParam, List.find?, hb1, hb2]
  · rw [hparse]
    simp [lookupParam, List.find?, hb3, hb4, hb5]
  · rw [hparse]
    simp [lookupParam, List.find?, hb6, hb7, hb8, hb9, hb10]
    exact splitOnByte_joinBytes hsne fun s hs => (hscopes s hs).2

/-- A concrete login-flow configuration used to instantiate the round-trip
theorem: client id `abc`, scopes `profile` and `notify`, redirect
`https://x/cb`. -/
def cfgSample : BaseOAuth2Configuration where
  client_id := asciiBytes "abc"
  client_secret := asciiBytes "secret0"
  auth_url := asciiBytes "https://access.line.me/oauth2/v2.1/authorize"
  access_token_url := asciiBytes "https://api.line.me/oauth2/v2.1/token"
  scopes := [asciiBytes "profile", asciiBytes "notify"]
  redirect_url := asciiBytes "https://x/cb"

theorem C6_create_auth_url_roundtrip_witness :
    (Bytes256 cfgSample.client_id ∧ Bytes256 cfgSample.redirect_url ∧
      Bytes256 (asciiBytes "xyz") ∧
      (∀ s ∈ cfgSample.scopes, Bytes256 s ∧ 32 ∉ s) ∧
      cfgSample.scopes ≠ [] ∧ 63 ∉ cfgSample.auth_url) ∧
    (lookupParam (asciiBytes "client_id")
        (parseQS (queryStringOf (create_auth_url cfgSample (asciiBytes "xyz")))) =
      some cfgSample.client_id ∧
    lookupParam (asciiBytes "redirect_uri")
        (parseQS (queryStringOf (create_auth_url cfgSample (asciiBytes "xyz")))) =
      some cfgSample.redirect_url ∧
    (lookupParam (asciiBytes "scope")
        (parseQS (queryStringOf
          (create_auth_url cfgSample (asciiBytes "xyz"))))).map
        (splitOnByte 32) =
      some cfgSample.scopes) :=
  ⟨⟨by decide, by decide, by decide, by decide, by decide, by decide⟩,
    C6_create_auth_url_roundtrip cfgSample (asciiBytes "xyz") (by decide)
      (by decide) (by decide) (by decide) (by decide) (by decide)⟩

/-! ## The managers' `auth_url` methods and their `lru_cache` (C2)

Both `LineLoginOAuth2Manager.auth_url` and `LineNotifyOAuth2Manager.auth_url`
are wrapped in `functools.lru_cache(maxsize=64)` on a process-wide singleton
manager (containers.py registers the managers with `providers.Singleton`).
The cache is keyed by the `state` argument. `utils.get_shortuuid` lives in
`app/utils.py`, which is absent from src; modelled from the spec (a fresh
opaque, unguessable string per generation) as a stream `rng` indexed by a
counter that advances once per draw. -/

/-- Memoization state of an `auth_url` method: the `lru_cache` table keyed by
the `state` argument, and the position in the short-uuid stream. -/
structure LruState where
  entries : List (Option (List Nat) × List Nat)
  counter : Nat
deriving DecidableEq

/-- Cache lookup by key. -/
def lruLookup (c : List (Option (List Nat) × List Nat))
    (k : Option (List Nat)) : Option (List Nat) :=
  (c.find? fun e => e.1 == k).map fun e => e.2

/-- `LineLoginOAuth2Manager.auth_url` (services/auth.py): `lru_cache` around
`_create_auth_url`; on a cache miss a falsy `state` (absent or empty) is
replaced by a fresh short uuid. -/
def LineLoginOAuth2Manager_auth_url (cfg : BaseOAuth2Configuration)
    (rng : Nat → List Nat) (state : Option (List Nat)) (ms : LruState) :
    List Nat × LruState :=
  match lruLookup ms.entries state with
  | some url => (url, ms)
  | none =>
    match state with
    | some s =>
      if s = [] then
        let url := create_auth_url cfg (rng ms.counter)
        (url, ⟨(state, url) :: ms.entries, ms.counter + 1⟩)
      else
        let url := create_auth_url cfg s
        (url, ⟨(state, url) :: ms.entries, ms.counter⟩)
    | none =>
      let url := create_auth_url cfg (rng ms.counter)
      (url, ⟨(none, url) :: ms.entries, ms.counter + 1⟩)

/-- `LineNotifyOAuth2Manager.auth_url`: same memoization, `state` required. -/
def LineNotifyOAuth2Manager_auth_url (cfg : BaseOAuth2Configuration)
    (rng : Nat → List Nat) (state : List Nat) (ms : LruState) :
    List Nat × LruState :=
  match lruLookup ms.entries (some state) with
  | some url => (url, ms)
  | none =>
    if state = [] then
      let url := create_auth_url cfg (rng ms.counter)
      (url, ⟨(some state, url) :: ms.entries, ms.counter + 1⟩)
    else
      let url := create_auth_url cfg state
      (url, ⟨(some state, url) :: ms.entries, ms.counter⟩)

/-- C2 (code evaluated at the failing input): two successive calls of the
Login flow's `auth_url()` with no supplied state return the *identical* URL
(hence the identical `state` query parameter), for every configuration,
every random stream and every starting cache state, because `lru_cache`
memoizes the first result under the key `state = None`. This contradicts the
claim that the two URLs carry different, freshly minted states. -/
theorem C2_login_auth_url_memoized (cfg : BaseOAuth2Configuration)
    (rng : Nat → List Nat) (ms : LruState) :
    (LineLoginOAuth2Manager_auth_url cfg rng none
      (LineLoginOAuth2Manager_auth_url cfg rng none ms).2).1 =
    (LineLoginOAuth2Manager_auth_url cfg rng none ms).1 := by
  cases h : lruLookup ms.entries none with
  | some url => simp [LineLoginOAuth2Manager_auth_url, h]
  | none =>
    have h1 : LineLoginOAuth2Manager_auth_url cfg rng none ms =
        (create_auth_url cfg (rng ms.counter),
          ⟨(none, create_auth_url cfg (rng ms.counter)) :: ms.entries,
            ms.counter + 1⟩) := by
      simp [LineLoginOAuth2Manager_auth_url, h]
    rw [h1]
    simp [LineLoginOAuth2Manager_auth_url, lruLookup]

/-! ## Resilient request client and provider API handler (C3, C4)
(`app/services/httpx.py`, `app/services/line.py`, `app/schemas/line.py`) -/

/-- A flat JSON value, as found in the provider's token responses. -/
inductive JVal where
  | str (s : String)
  | num (n : Nat)
deriving DecidableEq

/-- A parsed JSON object body (`rsp.json()`). -/
abbrev JBody := List (String × JVal)

def jget (body : JBody) (key : String) : Option JVal :=
  (body.find? fun kv => kv.1 == key).map fun kv => kv.2

def jstr : Option JVal → Option String
  | some (.str s) => some s
  | _ => none

def jnum : Option JVal → Option Nat
  | some (.num n) => some n
  | _ => none

/-- The server-side statuses the retry client retries on (httpx.py). -/
def RAISE_STATUS : List Nat := [500, 501, 502, 503, 504, 505, 506, 507, 508]

/-- `AsyncRequestHandler.post` (httpx.py), with the transport and the
exhausted retry loop abstracted into the final response `rsp`: a status in
`RAISE_STATUS` has its body replaced by the fixed detail
`outside server crash`; any other status returns the parsed body. -/
def AsyncRequestHandler_post (rsp : Nat × JBody) : Nat × JBody :=
  if rsp.1 ∈ RAISE_STATUS then
    (rsp.1, [("detail", JVal.str "outside server crash")])
  else rsp

/-- The internal exception taxonomy (exceptions.py), carrying each
exception's payload. -/
inductive LineExc where
  | lineAuthCallback (message : Option String)
  | dbServiceUpdate (message : String)
  | cacheServiceSave (message : String)
  | lineAPIUnexpectedStatusCode (message : JBody)
  | lineSchemaValidation
  | lineAuthJWT
deriving DecidableEq

/-- `datetime.fromtimestamp(v)`: the absolute time `v` seconds after the
Unix epoch, shifted into the local timezone (`tzOffset` seconds). -/
def fromtimestamp (tzOffset : Int) (v : Nat) : Int := tzOffset + v

/-- The `seconds_to_datetime` validator of `BaseTokenResponse`
(schemas/line.py): the raw `expires_in` number is converted with
`datetime.fromtimestamp`. -/
def seconds_to_datetime (tzOffset : Int) (v : Nat) : Int :=
  fromtimestamp tzOffset v

/-- `LineSchema.LoginAccessTokenResponse`: times are absolute (seconds). -/
structure LoginAccessTokenResponse where
  access_token : String
  expires_in : Int
  refresh_token : String
  scope : String
  token_type : String
  id_token : String
deriving DecidableEq

/-- Pydantic validation of a login token response body: all required fields
present with their required shapes, `expires_in` run through the
`seconds_to_datetime` validator, `token_type` defaulted to `Bearer`. -/
def parseLoginAccessTokenResponse (tz : Int) (body : JBody) :
    Except LineExc LoginAccessTokenResponse :=
  match jstr (jget body "access_token"), jnum (jget body "expires_in"),
      jstr (jget body "refresh_token"), jstr (jget body "scope"),
      jstr (jget body "id_token") with
  | some a, some e, some r, some sc, some i =>
    .ok ⟨a, seconds_to_datetime tz e, r, sc,
      (jstr (jget body "token_type")).getD "Bearer", i⟩
  | _, _, _, _, _ => .error .lineSchemaValidation

/-- `LineLoginAPIHandler.get_access_token` (services/line.py): send through
`AsyncRequestHandler.post`; a non-200 status raises
`LineAPIUnexpectedStatusCodeException` carrying the returned body; a 200
body is validated into `LoginAccessTokenResponse`. -/
def LineLoginAPIHandler_get_access_token (tz : Int) (rsp : Nat × JBody) :
    Except LineExc LoginAccessTokenResponse :=
  let r := AsyncRequestHandler_post rsp
  if r.1 ≠ 200 then .error (.lineAPIUnexpectedStatusCode r.2)
  else parseLoginAccessTokenResponse tz r.2

/-- C4 (counterexample): a 500 response with body `error: server_error`
raises `LineAPIUnexpectedStatusCodeException` whose message is the fixed
`outside server crash` detail, not the provider's body verbatim. -/
theorem C4_counterexample :
    LineLoginAPIHandler_get_access_token 0
        (500, [("error", JVal.str "server_error")]) =
      .error (.lineAPIUnexpectedStatusCode
        [("detail", JVal.str "outside server crash")]) ∧
    [("detail", JVal.str "outside server crash")] ≠
      ([("error", JVal.str "server_error")] : JBody) := by
  exact ⟨by decide, by decide⟩

/-- C4 (amended): for every non-200 status the exchange raises
`LineAPIUnexpectedStatusCodeException`; its message is the provider's body
verbatim for statuses outside 500-508, and the fixed
`outside server crash` detail for statuses 500-508 (masked by
`AsyncRequestHandler.post`). -/
theorem C4_unexpected_status_message (tz : Int) (sc : Nat) (body : JBody)
    (h : sc ≠ 200) :
    LineLoginAPIHandler_get_access_token tz (sc, body) =
      .error (.lineAPIUnexpectedStatusCode
        (if sc ∈ RAISE_STATUS then
          [("detail", JVal.str "outside server crash")]
         else body)) := by
  unfold LineLoginAPIHandler_get_access_token AsyncRequestHandler_post
  by_cases hr : sc ∈ RAISE_STATUS
  · simp [hr, h]
  · simp [hr, h]

theorem C4_unexpected_status_message_witness :
    (404 : Nat) ≠ 200 ∧
    LineLoginAPIHandler_get_access_token 0
        (404, [("error", JVal.str "invalid_grant")]) =
      .error (.lineAPIUnexpectedStatusCode
        (if (404 : Nat) ∈ RAISE_STATUS then
          [("detail", JVal.str "outside server crash")]
         else [("error", JVal.str "invalid_grant")])) :=
  ⟨by decide,
    C4_unexpected_status_message 0 404 [("error", JVal.str "invalid_grant")]
      (by decide)⟩

/-- C3 (code evaluated at the failing inputs): for every parsed login token
response, the stored expiry is `seconds_to_datetime` of the raw
`expires_in`, i.e. the epoch plus that many seconds (timezone-shifted) —
and for every receipt time from the year 2000 on and every real timezone
offset this differs from receipt time plus `expires_in` seconds. -/
theorem C3_expiry_not_receipt_relative (tz receivedAt : Int) (v : Nat)
    (body : JBody) (r : LoginAccessTokenResponse)
    (htz1 : -50400 ≤ tz) (htz2 : tz ≤ 50400) (ht : 946684800 ≤ receivedAt)
    (hv : jnum (jget body "expires_in") = some v)
    (hparse : parseLoginAccessTokenResponse tz body = .ok r) :
    r.expires_in = seconds_to_datetime tz v ∧
    r.expires_in ≠ receivedAt + v := by
  unfold parseLoginAccessTokenResponse at hparse
  split at hparse
  · next a e rr sc i ha he hrr hsc hi =>
    rw [hv] at he
    injection he with he
    subst he
    injection hparse with hparse
    subst hparse
    refine ⟨rfl, ?_⟩
    simp only [seconds_to_datetime, fromtimestamp]
    omega
  · exact absurd hparse (by simp)

theorem C3_expiry_not_receipt_relative_witness :
    ((-50400 : Int) ≤ 0 ∧ (0 : Int) ≤ 50400 ∧
      (946684800 : Int) ≤ 1640995200 ∧
      jnum (jget [("access_token", JVal.str "at0"),
        ("expires_in", JVal.num 2592000),
        ("refresh_token", JVal.str "rt0"),
        ("scope", JVal.str "profile"),
        ("id_token", JVal.str "idt0")] "expires_in") = some 2592000 ∧
      parseLoginAccessTokenResponse 0
        [("access_token", JVal.str "at0"),
          ("expires_in", JVal.num 2592000),
          ("refresh_token", JVal.str "rt0"),
          ("scope", JVal.str "profile"),
          ("id_token", JVal.str "idt0")] =
        .ok ⟨"at0", 2592000, "rt0", "profile", "Bearer", "idt0"⟩) ∧
    ((⟨"at0", 2592000, "rt0", "profile", "Bearer", "idt0"⟩ :
        LoginAccessTokenResponse).expires_in = seconds_to_datetime 0 2592000 ∧
      (⟨"at0", 2592000, "rt0", "profile", "Bearer", "idt0"⟩ :
        LoginAccessTokenResponse).expires_in ≠ 1640995200 + 2592000) :=
  ⟨⟨by decide, by decide, by decide, by decide, by decide⟩,
    C3_expiry_not_receipt_relative 0 1640995200 2592000
      [("access_token", JVal.str "at0"), ("expires_in", JVal.num 2592000),
        ("refresh_token", JVal.str "rt0"), ("scope", JVal.str "profile"),
        ("id_token", JVal.str "idt0")]
      ⟨"at0", 2592000, "rt0", "profile", "Bearer", "idt0"⟩
      (by decide) (by decide) (by decide) (by decide) (by decide)⟩

/-! ## Datastore rows (models.py) and schemas -/

/-- `models.User`: times are absolute (seconds). -/
structure User where
  id : Nat
  name : String
  email : Option String
  password_hash : Option String
  create_at : Int
  last_login_at : Option Int
deriving DecidableEq

/-- `models.LineLogin`: the login identity record, keyed by the provider
subject `sub`; one to one with `User`. -/
structure LineLogin where
  user_id : Nat
  sub : String
  access_token : String
  refresh_token : String
  expires_in : Int
  name : String
  picture : String
  email : Option String
  update_at : Option Int
deriving DecidableEq

/-- `models.LineNotify`: the notification grant record, one per user. -/
structure LineNotify where
  user_id : Nat
  access_token : String
  is_revoked : Bool
  create_at : Int
  update_at : Option Int
deriving DecidableEq

/-- `LineSchema.IDTokenSchema`: the decoded identity token claims. -/
structure IDTokenSchema where
  iss : String
  sub : String
  aud : String
  exp : Nat
  iat : Nat
  nonce : Option String
  amr : List String
  name : String
  picture : String
  email : Option String
deriving DecidableEq

/-- Modelled from the spec: `UserSchema.UserInCache` (the user schema module
is not under src). Spec §3, Session Cache Entry value: user id, display
name, login token, login kind. -/
structure UserInCache where
  id : Nat
  name : String
  login_token : String
  login_type : String
deriving DecidableEq

/-- `LineSchema.NotifyAccessTokenResponse`: access token only. -/
structure NotifyAccessTokenResponse where
  access_token : String
deriving DecidableEq

/-- Modelled from the spec: `CRUDBase.update_with_select` (the repository
base class `app/repositories/base.py` is not under src). Spec §3 and §4.6:
an update applies the supplied field changes in place to every row matching
the filter (update-if-exists, never an insert), returning the matched
count. -/
def update_with_select {α : Type} (p : α → Bool) (f : α → α)
    (rows : List α) : List α × Nat :=
  (rows.map fun r => if p r then f r else r, rows.countP p)

/-- Python truthiness of an optional query parameter: absent (`None`) and
the empty string are falsy. -/
def truthy : Option String → Bool
  | none => false
  | some s => !(s == "")

/-- tortoise `atomic()` around a callback handler: when the handler raises,
the transaction is rolled back, so the committed datastore is the one from
before the call; on success the new datastore commits. Cache and network
effects (the trace) are outside the transaction. -/
def atomic {ε α δ τ : Type} (db : δ) (r : Except ε α × δ × τ) :
    Except ε α × δ × τ :=
  match r.1 with
  | .error e => (.error e, db, r.2.2)
  | .ok _ => r

/-! ## The login callback (routers/line.py, services/user.py) -/

/-- Side-effecting calls of the login callback, in program order. -/
inductive LAct where
  | tokenExchange (code : String)
  | dbCreateUser (name : String)
  | dbSaveLogin (user_id : Nat)
  | dbUpdateUser (user_id : Nat)
  | dbUpdateLogin (sub : String)
  | cachePut (session_id : String) (payload : UserInCache)
deriving DecidableEq

/-- The datastore visible to the login callback. -/
structure LoginDB where
  users : List User
  logins : List LineLogin
deriving DecidableEq

/-- Injected collaborator results for one login-callback invocation:
the provider token exchange, the identity-token decoding, the session-cache
`setex` outcome, the fresh short uuid (`utils.get_shortuuid`, modelled from
the spec as an opaque fresh session id), the id the datastore assigns to a
newly created user, and `utils.get_utc_now`. -/
structure LoginEnv where
  get_access_token : String → Except LineExc LoginAccessTokenResponse
  jwt_decode : String → Except LineExc IDTokenSchema
  cache_save_user : String → UserInCache → Bool
  get_shortuuid : String
  fresh_user_id : Nat
  now : Int

/-- `UserService.update_user` as called from the login callback:
`update_with_select` with schema `last_login_at := now`. -/
def update_user_last_login (rows : List User) (uid : Nat) (now : Int) :
    List User × Nat :=
  update_with_select (fun u => u.id == uid)
    (fun u => {u with last_login_at := some now}) rows

/-- `LineService.update_login` as called from the login callback:
`update_with_select` filtered by `sub`, with `update_at` plus the
access/refresh/expiry fields of the fresh token response and the
sub/name/picture fields of the decoded identity token. -/
def update_login_tokens (rows : List LineLogin) (sub0 : String)
    (rsp : LoginAccessTokenResponse) (idt : IDTokenSchema) (now : Int) :
    List LineLogin × Nat :=
  update_with_select (fun l => l.sub == sub0)
    (fun l =>
      {l with
        update_at := some now,
        access_token := rsp.access_token,
        refresh_token := rsp.refresh_token,
        expires_in := rsp.expires_in,
        sub := idt.sub,
        name := idt.name,
        picture := idt.picture}) rows

/-- The body of `line_authorization_callback` before the `atomic`
transaction wrapper. The `state` query parameter is received but used only
for debug logging. On success the issued session id is returned. -/
def line_authorization_callback_raw (env : LoginEnv) (db : LoginDB)
    (code state error error_description : Option String) :
    Except LineExc String × LoginDB × List LAct :=
  if truthy error then
    (.error (.lineAuthCallback error_description), db, [])
  else if !truthy code then
    (.error (.lineAuthCallback (some "Line server error [without code]")),
      db, [])
  else
    let c := code.getD ""
    match env.get_access_token c with
    | .error e => (.error e, db, [.tokenExchange c])
    | .ok rsp =>
      match env.jwt_decode rsp.id_token with
      | .error e => (.error e, db, [.tokenExchange c])
      | .ok idt =>
        match db.logins.find? (fun l => l.sub == idt.sub) with
        | none =>
          let user : User :=
            ⟨env.fresh_user_id, idt.name, none, none, env.now, none⟩
          let login : LineLogin :=
            ⟨user.id, idt.sub, rsp.access_token, rsp.refresh_token,
              rsp.expires_in, idt.name, idt.picture, idt.email, none⟩
          let db2 : LoginDB := ⟨db.users ++ [user], db.logins ++ [login]⟩
          let sid := env.get_shortuuid
          let payload : UserInCache :=
            ⟨user.id, idt.name, rsp.access_token, "line"⟩
          if env.cache_save_user sid payload then
            (.ok sid, db2,
              [.tokenExchange c, .dbCreateUser idt.name,
                .dbSaveLogin user.id, .cachePut sid payload])
          else
            (.error (.cacheServiceSave "Save user failure. Please try again"),
              db2,
              [.tokenExchange c, .dbCreateUser idt.name,
                .dbSaveLogin user.id, .cachePut sid payload])
        | some login0 =>
          let uid := login0.user_id
          let updUsers := update_user_last_login db.users uid env.now
          if updUsers.2 = 0 then
            (.error
              (.dbServiceUpdate "Update user failure [DB]. Please try again"),
              ⟨updUsers.1, db.logins⟩, [.tokenExchange c, .dbUpdateUser uid])
          else
            let updLogins :=
              update_login_tokens db.logins login0.sub rsp idt env.now
            let db2 : LoginDB := ⟨updUsers.1, updLogins.1⟩
            if updLogins.2 = 0 then
              (.error (.dbServiceUpdate
                "Update line login failure [DB]. Please try again"),
                db2,
                [.tokenExchange c, .dbUpdateUser uid,
                  .dbUpdateLogin login0.sub])
            else
              let sid := env.get_shortuuid
              let payload : UserInCache :=
                ⟨uid, idt.name, rsp.access_token, "line"⟩
              if env.cache_save_user sid payload then
                (.ok sid, db2,
                  [.tokenExchange c, .dbUpdateUser uid,
                    .dbUpdateLogin login0.sub, .cachePut sid payload])
              else
                (.error
                  (.cacheServiceSave "Save user failure. Please try again"),
                  db2,
                  [.tokenExchange c, .dbUpdateUser uid,
                    .dbUpdateLogin login0.sub, .cachePut sid payload])

/-- `line_authorization_callback`: the raw handler inside `atomic()`. -/
def line_authorization_callback (env : LoginEnv) (db : LoginDB)
    (code state error error_description : Option String) :
    Except LineExc String × LoginDB × List LAct :=
  atomic db
    (line_authorization_callback_raw env db code state error error_description)

/-! ## The notification callback (routers/line.py, services/line.py) -/

/-- Side-effecting calls of the notification callback, in program order. -/
inductive NAct where
  | cacheGetUser (session_id : String)
  | tokenExchange (code : String)
  | dbFilterNotify (user_id : Nat)
  | dbUpdateNotify (user_id : Nat)
  | dbSaveNotify (user_id : Nat)
  | cacheSaveNotify (user_id : Nat) (access_token : String)
deriving DecidableEq

/-- Injected collaborator results for one notification-callback invocation:
the session-cache lookup by the echoed state, the provider token exchange,
the credential-cache `set` outcome, and `utils.get_utc_now`. -/
structure NotifyEnv where
  get_user_in_cache : String → Option UserInCache
  get_access_token : String → Except LineExc NotifyAccessTokenResponse
  save_notify_to_cache : Nat → String → Bool
  now : Int

/-- `LineService.update_notify` as called from the notification callback:
`update_with_select` filtered by `user_id`, with `update_at` plus the new
access token and `is_revoked := false`. -/
def update_notify_grant (rows : List LineNotify) (uid : Nat) (tok : String)
    (now : Int) : List LineNotify × Nat :=
  update_with_select (fun r => r.user_id == uid)
    (fun r =>
      {r with
        update_at := some now,
        access_token := tok,
        is_revoked := false}) rows

/-- `LineService.update_notify` as called from `line_notify_revoked`:
`update_with_select` filtered by `user_id`, with `update_at` and
`is_revoked := true`. -/
def update_notify_revoked (rows : List LineNotify) (uid : Nat) (now : Int) :
    List LineNotify × Nat :=
  update_with_select (fun r => r.user_id == uid)
    (fun r =>
      {r with
        update_at := some now,
        is_revoked := true}) rows

/-- The body of `line_notify_authorization_callback` before the `atomic`
transaction wrapper: reject a provider error, reject a falsy code or state,
resolve the state as a session id in the Session Cache, exchange the code,
upsert the Notification Grant Record, write the Credential Cache. -/
def line_notify_authorization_callback_raw (env : NotifyEnv)
    (db : List LineNotify) (code state error error_description : Option String) :
    Except LineExc Unit × List LineNotify × List NAct :=
  if truthy error then
    (.error (.lineAuthCallback error_description), db, [])
  else if !truthy code || !truthy state then
    (.error (.lineAuthCallback (some "Line server error [without code]")),
      db, [])
  else
    let c := code.getD ""
    let s := state.getD ""
    match env.get_user_in_cache s with
    | none =>
      (.error (.lineAuthCallback
        (some "Invalid state [session_id]. Please try again")),
        db, [.cacheGetUser s])
    | some u =>
      match env.get_access_token c with
      | .error e => (.error e, db, [.cacheGetUser s, .tokenExchange c])
      | .ok rsp =>
        match db.find? (fun r => r.user_id == u.id) with
        | some _ =>
          let upd := update_notify_grant db u.id rsp.access_token env.now
          if upd.2 = 0 then
            (.error
              (.dbServiceUpdate "Update notify failure [DB]. Please try again"),
              upd.1,
              [.cacheGetUser s, .tokenExchange c, .dbFilterNotify u.id,
                .dbUpdateNotify u.id])
          else
            if env.save_notify_to_cache u.id rsp.access_token then
              (.ok (), upd.1,
                [.cacheGetUser s, .tokenExchange c, .dbFilterNotify u.id,
                  .dbUpdateNotify u.id, .cacheSaveNotify u.id rsp.access_token])
            else
              (.error
                (.cacheServiceSave "Cache notify failure. Please try again"),
                upd.1,
                [.cacheGetUser s, .tokenExchange c, .dbFilterNotify u.id,
                  .dbUpdateNotify u.id, .cacheSaveNotify u.id rsp.access_token])
        | none =>
          let row : LineNotify := ⟨u.id, rsp.access_token, false, env.now, none⟩
          let db2 := db ++ [row]
          if env.save_notify_to_cache u.id rsp.access_token then
            (.ok (), db2,
              [.cacheGetUser s, .tokenExchange c, .dbFilterNotify u.id,
                .dbSaveNotify u.id, .cacheSaveNotify u.id rsp.access_token])
          else
            (.error
              (.cacheServiceSave "Cache notify failure. Please try again"),
              db2,
              [.cacheGetUser s, .tokenExchange c, .dbFilterNotify u.id,
                .dbSaveNotify u.id, .cacheSaveNotify u.id rsp.access_token])

/-- `line_notify_authorization_callback`: the raw handler inside
`atomic()`. -/
def line_notify_authorization_callback (env : NotifyEnv)
    (db : List LineNotify) (code state error error_description : Option String) :
    Except LineExc Unit × List LineNotify × List NAct :=
  atomic db
    (line_notify_authorization_callback_raw env db code state error
      error_description)

/-! ## The revocation endpoint (routers/line.py) -/

/-- The detail payload of a FastAPI `HTTPException`. -/
inductive HTTPDetail where
  | text (s : String)
  | json (b : JBody)
deriving DecidableEq

/-- A FastAPI `HTTPException` raised from `line_notify_revoked`. -/
structure HTTPExc where
  status_code : Nat
  detail : HTTPDetail
deriving DecidableEq

/-- Side-effecting calls of `line_notify_revoked`, in program order. -/
inductive RAct where
  | cacheGetNotify (user_id : Nat)
  | dbFilterNotify (user_id : Nat)
  | dbUpdateRevoke (user_id : Nat)
  | apiRevoke (access_token : String)
  | cacheDeleteNotify (user_id : Nat)
deriving DecidableEq

/-- Injected collaborator results for one revocation request: the
credential-cache lookup, the provider's revoke endpoint response
(status and parsed body), and `utils.get_utc_now`. -/
structure RevokeEnv where
  get_notify_from_cache : Nat → Option String
  revoke : String → Nat × JBody
  now : Int

/-- The body of `line_notify_revoked` before the `atomic` transaction
wrapper: resolve the access token (cache first, datastore fallback, 404 if
neither), set `is_revoked` in the datastore, call the provider's revoke
endpoint, raise on a non-200 status, and only then delete the credential
cache entry. -/
def line_notify_revoked_raw (env : RevokeEnv) (db : List LineNotify)
    (user : UserInCache) :
    Except HTTPExc Unit × List LineNotify × List RAct :=
  match env.get_notify_from_cache user.id with
  | some access_token =>
    let upd := update_notify_revoked db user.id env.now
    if upd.2 = 0 then
      (.error ⟨500, .text "Update db failure. Please try again"⟩, upd.1,
        [.cacheGetNotify user.id, .dbUpdateRevoke user.id])
    else
      let rsp := env.revoke access_token
      if rsp.1 ≠ 200 then
        (.error ⟨rsp.1, .json rsp.2⟩, upd.1,
          [.cacheGetNotify user.id, .dbUpdateRevoke user.id,
            .apiRevoke access_token])
      else
        (.ok (), upd.1,
          [.cacheGetNotify user.id, .dbUpdateRevoke user.id,
            .apiRevoke access_token, .cacheDeleteNotify user.id])
  | none =>
    match db.find? (fun r => r.user_id == user.id) with
    | none =>
      (.error ⟨404, .text "Not found access token"⟩, db,
        [.cacheGetNotify user.id, .dbFilterNotify user.id])
    | some row =>
      let access_token := row.access_token
      let upd := update_notify_revoked db user.id env.now
      if upd.2 = 0 then
        (.error ⟨500, .text "Update db failure. Please try again"⟩, upd.1,
          [.cacheGetNotify user.id, .dbFilterNotify user.id,
            .dbUpdateRevoke user.id])
      else
        let rsp := env.revoke access_token
        if rsp.1 ≠ 200 then
          (.error ⟨rsp.1, .json rsp.2⟩, upd.1,
            [.cacheGetNotify user.id, .dbFilterNotify user.id,
              .dbUpdateRevoke user.id, .apiRevoke access_token])
        else
          (.ok (), upd.1,
            [.cacheGetNotify user.id, .dbFilterNotify user.id,
              .dbUpdateRevoke user.id, .apiRevoke access_token,
              .cacheDeleteNotify user.id])

/-- `line_notify_revoked`: the raw handler inside `atomic()`. -/
def line_notify_revoked (env : RevokeEnv) (db : List LineNotify)
    (user : UserInCache) :
    Except HTTPExc Unit × List LineNotify × List RAct :=
  atomic db (line_notify_revoked_raw env db user)

/-! ## Helper lemmas about the transaction wrapper -/

theorem atomic_fst {ε α δ τ : Type} (db : δ) (r : Except ε α × δ × τ) :
    (atomic db r).1 = r.1 := by
  rcases r with ⟨res, d, t⟩
  cases res <;> rfl

theorem atomic_trace {ε α δ τ : Type} (db : δ) (r : Except ε α × δ × τ) :
    (atomic db r).2.2 = r.2.2 := by
  rcases r with ⟨res, d, t⟩
  cases res <;> rfl

theorem atomic_ok {ε α δ τ : Type} (db : δ) (r : Except ε α × δ × τ)
    (a : α) (h : r.1 = .ok a) : atomic db r = r := by
  rcases r with ⟨res, d, t⟩
  cases res with
  | ok _ => rfl
  | error _ => exact absurd h (by simp)

/-! ## Claim theorems -/

/-- C9: the login callback's outcome — result, datastore and performed
actions — is independent of the `state` query parameter: two invocations
differing only in `state` (absent included) are equal outright; the state is
never compared against anything. -/
theorem C9_login_callback_state_independent (env : LoginEnv) (db : LoginDB)
    (code st1 st2 error error_description : Option String) :
    line_authorization_callback env db code st1 error error_description =
      line_authorization_callback env db code st2 error error_description :=
  rfl

/-- C1: a notification callback whose state does not resolve to a live
Session Cache entry ends in `LineAuthCallbackException`; the datastore is
unchanged and the trace holds no token exchange and no write (update or
create) of a Notification Grant Record. -/
theorem C1_notify_rejects_unknown_state (env : NotifyEnv)
    (db : List LineNotify) (code state error error_description : Option String)
    (hmiss : ∀ s, state = some s → env.get_user_in_cache s = none) :
    (∃ m, (line_notify_authorization_callback env db code state error
        error_description).1 = .error (.lineAuthCallback m)) ∧
    (line_notify_authorization_callback env db code state error
      error_description).2.1 = db ∧
    ∀ a ∈ (line_notify_authorization_callback env db code state error
        error_description).2.2,
      (∀ c, a ≠ NAct.tokenExchange c) ∧
      (∀ u, a ≠ NAct.dbUpdateNotify u) ∧
      (∀ u, a ≠ NAct.dbSaveNotify u) := by
  unfold line_notify_authorization_callback
    line_notify_authorization_callback_raw
  by_cases he : truthy error = true
  · simp [he, atomic]
  · by_cases hcs : (!truthy code || !truthy state) = true
    · simp [he, hcs, atomic]
    · cases state with
      | none => simp [truthy] at hcs
      | some s =>
        have hc := hmiss s rfl
        simp [he, hcs, hc, atomic]

/-- A stub environment for concrete notification-callback runs. -/
def envNotifyStub : NotifyEnv where
  get_user_in_cache := fun _ => none
  get_access_token := fun _ => .error .lineAuthJWT
  save_notify_to_cache := fun _ _ => false
  now := 0

theorem C1_notify_rejects_unknown_state_witness :
    (∃ m, (line_notify_authorization_callback envNotifyStub []
        (some "c0") (some "s0") none none).1 =
      .error (.lineAuthCallback m)) ∧
    (line_notify_authorization_callback envNotifyStub []
      (some "c0") (some "s0") none none).2.1 = [] ∧
    ∀ a ∈ (line_notify_authorization_callback envNotifyStub []
        (some "c0") (some "s0") none none).2.2,
      (∀ c, a ≠ NAct.tokenExchange c) ∧
      (∀ u, a ≠ NAct.dbUpdateNotify u) ∧
      (∀ u, a ≠ NAct.dbSaveNotify u) :=
  C1_notify_rejects_unknown_state envNotifyStub [] (some "c0") (some "s0")
    none none (fun _ _ => rfl)

/-- C5 (counterexample): a login callback whose `error` query parameter is
set — to the empty string, which Python's truthiness test treats as false —
proceeds to call the token endpoint, so a set error parameter does not
short-circuit the flow. -/
theorem C5_counterexample :
    LAct.tokenExchange "c0" ∈
      (line_authorization_callback
        ⟨fun _ => .error .lineAuthJWT, fun _ => .error .lineAuthJWT,
          fun _ _ => false, "sid0", 1, 0⟩
        ⟨[], []⟩ (some "c0") none (some "") none).2.2 := by
  decide

/-- C5 (amended): for every callback invocation — login or notification —
whose `error` query parameter is set to a nonempty string, the handler
raises `LineAuthCallbackException` carrying the provider's error
description, performs no action at all (no token-endpoint call, no cache
write) and leaves the datastore unchanged. -/
theorem C5_error_callback_short_circuits (envL : LoginEnv) (dbL : LoginDB)
    (envN : NotifyEnv) (dbN : List LineNotify)
    (code state code2 state2 : Option String) (e : String) (he : e ≠ "")
    (ed ed2 : Option String) :
    line_authorization_callback envL dbL code state (some e) ed =
      (.error (.lineAuthCallback ed), dbL, []) ∧
    line_notify_authorization_callback envN dbN code2 state2 (some e) ed2 =
      (.error (.lineAuthCallback ed2), dbN, []) := by
  have ht : truthy (some e) = true := by simp [truthy, he]
  constructor
  · simp [line_authorization_callback, line_authorization_callback_raw,
      atomic, ht]
  · simp [line_notify_authorization_callback,
      line_notify_authorization_callback_raw, atomic, ht]

theorem C5_error_callback_short_circuits_witness :
    "denied" ≠ "" ∧
    (line_authorization_callback
        ⟨fun _ => .error .lineAuthJWT, fun _ => .error .lineAuthJWT,
          fun _ _ => false, "sid0", 1, 0⟩
        ⟨[], []⟩ (some "c0") none (some "denied") (some "desc0") =
      (.error (.lineAuthCallback (some "desc0")), ⟨[], []⟩, []) ∧
    line_notify_authorization_callback envNotifyStub [] (some "c1") (some "s1")
        (some "denied") (some "desc1") =
      (.error (.lineAuthCallback (some "desc1")), [], [])) :=
  ⟨by decide,
    C5_error_callback_short_circuits
      ⟨fun _ => .error .lineAuthJWT, fun _ => .error .lineAuthJWT,
        fun _ _ => false, "sid0", 1, 0⟩
      ⟨[], []⟩ envNotifyStub [] (some "c0") none (some "c1") (some "s1")
      "denied" (by decide) (some "desc0") (some "desc1")⟩

/-- C8: the login callback returns a session id only when the session-cache
put reported success, and whenever the put it performed reported failure the
result is `CacheServiceSaveException` — never a session id without a
retrievable cache record. -/
theorem C8_session_id_requires_cache_write (env : LoginEnv) (db : LoginDB)
    (code state error ed : Option String) :
    (∀ sid, (line_authorization_callback env db code state error ed).1 =
        .ok sid →
      ∃ p, env.cache_save_user sid p = true) ∧
    (∀ sid p,
      LAct.cachePut sid p ∈
        (line_authorization_callback env db code state error ed).2.2 →
      env.cache_save_user sid p = false →
      (line_authorization_callback env db code state error ed).1 =
        .error (.cacheServiceSave "Save user failure. Please try again")) := by
  unfold line_authorization_callback
  rw [atomic_fst, atomic_trace]
  unfold line_authorization_callback_raw
  by_cases he : truthy error = true
  · simp [he]
  · by_cases hc : truthy code = true
    · cases hex : env.get_access_token (code.getD "") with
      | error e => simp [he, hc, hex]
      | ok rsp =>
        cases hjwt : env.jwt_decode rsp.id_token with
        | error e => simp [he, hc, hex, hjwt]
        | ok idt =>
          cases hfind : db.logins.find? (fun l => l.sub == idt.sub) with
          | none =>
            by_cases hput : env.cache_save_user env.get_shortuuid
                ⟨env.fresh_user_id, idt.name, rsp.access_token, "line"⟩ = true
            · constructor
              · intro sid hsid
                simp [he, hc] at hsid
                rw [hex] at hsid
                simp at hsid
                rw [hjwt] at hsid
                simp at hsid
                rw [hfind] at hsid
                simp [hput] at hsid
                exact ⟨⟨env.fresh_user_id, idt.name, rsp.access_token,
                  "line"⟩, hsid ▸ hput⟩
              · intro sid p hmem hfalse
                simp [he, hc] at hmem
                rw [hex] at hmem
                simp at hmem
                rw [hjwt] at hmem
                simp at hmem
                rw [hfind] at hmem
                simp [hput] at hmem
                obtain ⟨hsid, hp⟩ := hmem
                rw [hsid, hp] at hfalse
                rw [hput] at hfalse
                exact absurd hfalse (by simp)
            · constructor
              · intro sid hsid
                simp [he, hc] at hsid
                rw [hex] at hsid
                simp at hsid
                rw [hjwt] at hsid
                simp at hsid
                rw [hfind] at hsid
                simp [hput] at hsid
              · intro sid p hmem hfalse
                simp [he, hc]
                rw [hex]
                simp
                rw [hjwt]
                simp
                rw [hfind]
                simp [hput]
          | some login0 =>
            by_cases hnU : (update_user_last_login db.users login0.user_id
                env.now).2 = 0
            · simp [he, hc, hex, hjwt, hfind, hnU]
            · by_cases hnL : (update_login_tokens db.logins login0.sub rsp idt
                  env.now).2 = 0
              · simp [he, hc, hex, hjwt, hfind, hnU, hnL]
              · by_cases hput : env.cache_save_user env.get_shortuuid
                    ⟨login0.user_id, idt.name, rsp.access_token, "line"⟩ = true
                · constructor
                  · intro sid hsid
                    simp [he, hc] at hsid
                    rw [hex] at hsid
                    simp at hsid
                    rw [hjwt] at hsid
                    simp at hsid
                    rw [hfind] at hsid
                    simp [hnU, hnL, hput] at hsid
                    exact ⟨⟨login0.user_id, idt.name, rsp.access_token,
                      "line"⟩, hsid.symm ▸ hput⟩
                  · intro sid p hmem hfalse
                    simp [he, hc] at hmem
                    rw [hex] at hmem
                    simp at hmem
                    rw [hjwt] at hmem
                    simp at hmem
                    rw [hfind] at hmem
                    simp [hnU, hnL, hput] at hmem
                    obtain ⟨hsid, hp⟩ := hmem
                    rw [hsid, hp] at hfalse
                    rw [hput] at hfalse
                    exact absurd hfalse (by simp)
                · constructor
                  · intro sid hsid
                    simp [he, hc] at hsid
                    rw [hex] at hsid
                    simp at hsid
                    rw [hjwt] at hsid
                    simp at hsid
                    rw [hfind] at hsid
                    simp [hnU, hnL, hput] at hsid
                  · intro sid p hmem hfalse
                    simp [he, hc]
                    rw [hex]
                    simp
                    rw [hjwt]
                    simp
                    rw [hfind]
                    simp [hnU, hnL, hput]
    · simp [he, hc]

theorem C8_session_id_requires_cache_write_witness :
    LAct.cachePut "sid0"
        ⟨1, "Amy", "at0", "line"⟩ ∈
      (line_authorization_callback
        ⟨fun _ => .ok ⟨"at0", 0, "rt0", "profile", "Bearer", "idt0"⟩,
          fun _ => .ok ⟨"iss", "subA", "aud", 0, 0, none, [], "Amy", "pic", none⟩,
          fun _ _ => false, "sid0", 1, 0⟩
        ⟨[], []⟩ (some "c0") none none none).2.2 ∧
    (line_authorization_callback
        ⟨fun _ => .ok ⟨"at0", 0, "rt0", "profile", "Bearer", "idt0"⟩,
          fun _ => .ok ⟨"iss", "subA", "aud", 0, 0, none, [], "Amy", "pic", none⟩,
          fun _ _ => false, "sid0", 1, 0⟩
        ⟨[], []⟩ (some "c0") none none none).1 =
      .error (.cacheServiceSave "Save user failure. Please try again") :=
  ⟨by decide,
    (C8_session_id_requires_cache_write
      ⟨fun _ => .ok ⟨"at0", 0, "rt0", "profile", "Bearer", "idt0"⟩,
        fun _ => .ok ⟨"iss", "subA", "aud", 0, 0, none, [], "Amy", "pic", none⟩,
        fun _ _ => false, "sid0", 1, 0⟩
      ⟨[], []⟩ (some "c0") none none none).2 "sid0"
      ⟨1, "Amy", "at0", "line"⟩ (by decide) rfl⟩

theorem find?_update_with_select {α : Type} (p : α → Bool) (f : α → α)
    (hpf : ∀ r, p r = true → p (f r) = true) (rows : List α) :
    (update_with_select p f rows).1.find? p = (rows.find? p).map f := by
  induction rows with
  | nil => rfl
  | cons r rows ih =>
    have hcons : (update_with_select p f (r :: rows)).1 =
        (if p r then f r else r) :: (update_with_select p f rows).1 := by
      simp [update_with_select]
    rw [hcons]
    by_cases hr : p r = true
    · rw [if_pos hr, List.find?_cons_of_pos _ (hpf r hr),
        List.find?_cons_of_pos _ hr]
      rfl
    · rw [if_neg hr, List.find?_cons_of_neg _ (by simpa using hr),
        List.find?_cons_of_neg _ (by simpa using hr), ih]

/-- C7: a login callback resolving to an existing Login Identity Record sets
the user's `last_login_at` to the current time — strictly later than any
previous value — and replaces the record's stored access and refresh tokens
wholesale with the fresh token response's values, whatever the old values
were. -/
theorem C7_existing_login_replaced (env : LoginEnv) (db : LoginDB)
    (c : String) (state error ed : Option String)
    (rsp : LoginAccessTokenResponse) (idt : IDTokenSchema)
    (login0 : LineLogin) (u0 : User)
    (herr : truthy error = false) (hc : c ≠ "")
    (hex : env.get_access_token c = .ok rsp)
    (hjwt : env.jwt_decode rsp.id_token = .ok idt)
    (hfind : db.logins.find? (fun l => l.sub == idt.sub) = some login0)
    (hu : db.users.find? (fun u => u.id == login0.user_id) = some u0)
    (hprev : ∀ t, u0.last_login_at = some t → t < env.now)
    (hput : env.cache_save_user env.get_shortuuid
      ⟨login0.user_id, idt.name, rsp.access_token, "line"⟩ = true) :
    (line_authorization_callback env db (some c) state error ed).1 =
      .ok env.get_shortuuid ∧
    (line_authorization_callback env db (some c) state error
        ed).2.1.users.find? (fun u => u.id == login0.user_id) =
      some {u0 with last_login_at := some env.now} ∧
    (line_authorization_callback env db (some c) state error
        ed).2.1.logins.find? (fun l => l.sub == idt.sub) =
      some {login0 with
        update_at := some env.now,
        access_token := rsp.access_token,
        refresh_token := rsp.refresh_token,
        expires_in := rsp.expires_in,
        sub := idt.sub,
        name := idt.name,
        picture := idt.picture} ∧
    (∀ t, u0.last_login_at = some t → t < env.now) := by
  have hsub : login0.sub = idt.sub := by
    have := List.find?_some hfind
    simpa using this
  have humem := List.mem_of_find?_eq_some hu
  have hpu : (u0.id == login0.user_id) = true := by
    have h := List.find?_some hu
    simpa using h
  have hnU : (update_user_last_login db.users login0.user_id env.now).2 ≠ 0 := by
    have hpos : 0 < db.users.countP (fun u => u.id == login0.user_id) :=
      List.countP_pos_iff.mpr ⟨u0, humem, hpu⟩
    have h2 : (update_user_last_login db.users login0.user_id env.now).2 =
        db.users.countP (fun u => u.id == login0.user_id) := rfl
    omega
  have hlmem := List.mem_of_find?_eq_some hfind
  have hpl : (login0.sub == login0.sub) = true := by simp
  have hnL : (update_login_tokens db.logins login0.sub rsp idt env.now).2 ≠ 0 := by
    have hpos : 0 < db.logins.countP (fun l => l.sub == login0.sub) :=
      List.countP_pos_iff.mpr ⟨login0, hlmem, hpl⟩
    have h2 : (update_login_tokens db.logins login0.sub rsp idt env.now).2 =
        db.logins.countP (fun l => l.sub == login0.sub) := rfl
    omega
  have htc : truthy (some c) = true := by simp [truthy, hc]
  have hrun : line_authorization_callback env db (some c) state error ed =
      (.ok env.get_shortuuid,
        ⟨(update_user_last_login db.users login0.user_id env.now).1,
          (update_login_tokens db.logins login0.sub rsp idt env.now).1⟩,
        [.tokenExchange c, .dbUpdateUser login0.user_id,
          .dbUpdateLogin login0.sub,
          .cachePut env.get_shortuuid
            ⟨login0.user_id, idt.name, rsp.access_token, "line"⟩]) := by
    unfold line_authorization_callback line_authorization_callback_raw
    simp [herr, htc]
    rw [hex]
    simp
    rw [hjwt]
    simp
    rw [hfind]
    simp [hnU, hnL, hput, atomic]
  rw [hrun]
  refine ⟨rfl, ?_, ?_, hprev⟩
  · show (update_user_last_login db.users login0.user_id env.now).1.find?
        (fun u => u.id == login0.user_id) = _
    have hlem := find?_update_with_select (fun u => u.id == login0.user_id)
      (fun u => {u with last_login_at := some env.now})
      (fun r hr => hr) db.users
    have hdef : update_user_last_login db.users login0.user_id env.now =
        update_with_select (fun u => u.id == login0.user_id)
          (fun u => {u with last_login_at := some env.now}) db.users := rfl
    rw [hdef, hlem, hu]
    rfl
  · show (update_login_tokens db.logins login0.sub rsp idt env.now).1.find?
        (fun l => l.sub == idt.sub) = _
    rw [hsub]
    have hlem := find?_update_with_select (fun l => l.sub == idt.sub)
      (fun l =>
        {l with
          update_at := some env.now,
          access_token := rsp.access_token,
          refresh_token := rsp.refresh_token,
          expires_in := rsp.expires_in,
          sub := idt.sub,
          name := idt.name,
          picture := idt.picture})
      (fun r _ => by simp) db.logins
    have hdef : update_login_tokens db.logins idt.sub rsp idt env.now =
        update_with_select (fun l => l.sub == idt.sub)
          (fun l =>
            {l with
              update_at := some env.now,
              access_token := rsp.access_token,
              refresh_token := rsp.refresh_token,
              expires_in := rsp.expires_in,
              sub := idt.sub,
              name := idt.name,
              picture := idt.picture}) db.logins := rfl
    rw [hdef, hlem]
    rw [show db.logins.find? (fun l => l.sub == idt.sub) = some login0
      from hfind]
    rfl

/-- A concrete login environment whose callback resolves to the existing
record of user 7 below. -/
def envLogin7 : LoginEnv where
  get_access_token := fun _ =>
    .ok ⟨"newAT", 99, "newRT", "profile", "Bearer", "idtok"⟩
  jwt_decode := fun _ =>
    .ok ⟨"iss", "subX", "aud", 0, 0, none, [], "NewName", "pic2", none⟩
  cache_save_user := fun _ _ => true
  get_shortuuid := "sid7"
  fresh_user_id := 99
  now := 5

/-- A concrete datastore with one user (last login at time 1) and one login
identity record for provider subject `subX`. -/
def dbLogin7 : LoginDB where
  users := [⟨7, "Old", none, none, 0, some 1⟩]
  logins := [⟨7, "subX", "oldAT", "oldRT", 0, "Old", "oldpic", none, none⟩]

theorem C7_existing_login_replaced_witness :
    (truthy none = false ∧ "c7" ≠ "" ∧
      dbLogin7.logins.find? (fun l => l.sub == "subX") =
        some ⟨7, "subX", "oldAT", "oldRT", 0, "Old", "oldpic", none, none⟩) ∧
    ((line_authorization_callback envLogin7 dbLogin7 (some "c7") none none
        none).1 = .ok "sid7" ∧
      (line_authorization_callback envLogin7 dbLogin7 (some "c7") none none
          none).2.1.users.find? (fun u => u.id == 7) =
        some ⟨7, "Old", none, none, 0, some 5⟩ ∧
      (line_authorization_callback envLogin7 dbLogin7 (some "c7") none none
          none).2.1.logins.find? (fun l => l.sub == "subX") =
        some ⟨7, "subX", "newAT", "newRT", 99, "NewName", "pic2", none,
          some 5⟩) :=
  ⟨⟨by decide, by decide, by decide⟩, by
    have h := C7_existing_login_replaced envLogin7 dbLogin7 "c7" none none none
      ⟨"newAT", 99, "newRT", "profile", "Bearer", "idtok"⟩
      ⟨"iss", "subX", "aud", 0, 0, none, [], "NewName", "pic2", none⟩
      ⟨7, "subX", "oldAT", "oldRT", 0, "Old", "oldpic", none, none⟩
      ⟨7, "Old", none, none, 0, some 1⟩
      (by decide) (by decide) rfl rfl rfl rfl
      (by intro t ht; injection ht with h2; rw [← h2]; decide) rfl
    exact ⟨h.1, h.2.1, h.2.2.1⟩⟩

/-- C10 (counterexample): with the grant record present and the provider
answering 401 to the revoke call, `line_notify_revoked` raises — but the
committed datastore still holds `is_revoked = false`: the `atomic()`
transaction wrapping the handler rolls the update back when the handler
raises, so the datastore update is *not* left applied on error. -/
theorem C10_counterexample :
    (line_notify_revoked
        ⟨fun _ => some "tokR",
          fun _ => (401, [("message", JVal.str "Invalid access token")]), 3⟩
        [⟨9, "tokR", false, 0, none⟩] ⟨9, "Bea", "lt", "line"⟩).2.1 =
      [⟨9, "tokR", false, 0, none⟩] ∧
    (line_notify_revoked
        ⟨fun _ => some "tokR",
          fun _ => (401, [("message", JVal.str "Invalid access token")]), 3⟩
        [⟨9, "tokR", false, 0, none⟩] ⟨9, "Bea", "lt", "line"⟩).1 =
      .error ⟨401, .json [("message", JVal.str "Invalid access token")]⟩ :=
  ⟨by decide, by decide⟩

/-- C10 (amended): in `line_notify_revoked` the `is_revoked` update is
executed on the datastore before the provider's revoke endpoint is
contacted (the trace lists the update strictly before the revoke call); on
a non-200 status the handler raises carrying the provider's status and
body, the credential cache entry is not deleted, and the surrounding
`atomic()` transaction rolls the datastore update back; the cache entry is
deleted only after a 200 response, in which case the update commits. -/
theorem C10_revoke_update_before_call (env : RevokeEnv)
    (db : List LineNotify) (user : UserInCache) (tok : String)
    (hcache : env.get_notify_from_cache user.id = some tok)
    (hnz : (update_notify_revoked db user.id env.now).2 ≠ 0) :
    ((env.revoke tok).1 ≠ 200 →
      line_notify_revoked env db user =
        (.error ⟨(env.revoke tok).1, .json (env.revoke tok).2⟩, db,
          [.cacheGetNotify user.id, .dbUpdateRevoke user.id,
            .apiRevoke tok])) ∧
    ((env.revoke tok).1 = 200 →
      line_notify_revoked env db user =
        (.ok (), (update_notify_revoked db user.id env.now).1,
          [.cacheGetNotify user.id, .dbUpdateRevoke user.id, .apiRevoke tok,
            .cacheDeleteNotify user.id])) := by
  constructor
  · intro h
    unfold line_notify_revoked line_notify_revoked_raw
    rw [hcache]
    simp [hnz, h, atomic]
  · intro h
    unfold line_notify_revoked line_notify_revoked_raw
    rw [hcache]
    simp [hnz, h, atomic]

/-- A concrete revoke environment whose provider answers 404. -/
def envRevoke404 : RevokeEnv where
  get_notify_from_cache := fun _ => some "tokR"
  revoke := fun _ => (404, [])
  now := 3

theorem C10_revoke_update_before_call_witness :
    (envRevoke404.get_notify_from_cache 9 = some "tokR" ∧
      (update_notify_revoked [⟨9, "tokR", false, 0, none⟩] 9
        envRevoke404.now).2 ≠ 0 ∧ (404 : Nat) ≠ 200) ∧
    line_notify_revoked envRevoke404 [⟨9, "tokR", false, 0, none⟩]
        ⟨9, "Bea", "lt", "line"⟩ =
      (.error ⟨404, .json []⟩, [⟨9, "tokR", false, 0, none⟩],
        [.cacheGetNotify 9, .dbUpdateRevoke 9, .apiRevoke "tokR"]) :=
  ⟨⟨rfl, by decide, by decide⟩,
    (C10_revoke_update_before_call envRevoke404 [⟨9, "tokR", false, 0, none⟩]
      ⟨9, "Bea", "lt", "line"⟩ "tokR" rfl (by decide)).1 (by decide)⟩

end App
